import Mathlib

/-!
Verification of the AWS IoT Core message-queuing test harness
(`src/config.py`, `src/publisher.py`, `src/subscriber.py`).

The Python code is shallowly embedded: each method becomes a pure Lean
function over an explicit state record, asynchronous callbacks become
events applied to the state, and the thread/transport environment
(connection interruptions, scheduled reconnect threads, publish
acknowledgements) is modelled as an explicit event/step relation.
-/

set_option autoImplicit false
set_option linter.unusedVariables false

/-- Insert-or-overwrite into an association list, mirroring a Python
`dict` assignment `d[k] = v`: if the key is present its value is
replaced in place (order preserved); otherwise the pair is appended. -/
def dictInsert {α : Type} (m : List (String × α)) (k : String) (v : α) :
    List (String × α) :=
  if k ∈ m.map Prod.fst then
    m.map (fun p => if p.1 = k then (k, v) else p)
  else m ++ [(k, v)]

/-- Lookup in an association list, mirroring Python `d[k]` / `d.get(k)`. -/
def dictGet {α : Type} (m : List (String × α)) (k : String) : Option α :=
  match m with
  | [] => none
  | p :: rest => if p.1 = k then some p.2 else dictGet rest k

/-- Apply `f` to the element at index `i`, leaving the rest unchanged. -/
def updateAt {α : Type} : List α → Nat → (α → α) → List α
  | [], _, _ => []
  | x :: xs, 0, f => f x :: xs
  | x :: xs, Nat.succ n, f => x :: updateAt xs n f

/-- `countUp a n = [a, a+1, ..., a+n-1]`: consecutive, gap-free naturals. -/
def countUp (start : Nat) : Nat → List Nat
  | 0 => []
  | Nat.succ n => start :: countUp (start + 1) n

/-- Outcome of awaiting `mqtt_connection.disconnect()`'s future: either it
completes, or `future.result` raises; the flag records whether the raised
error message contains `"NOT_CONNECTED"` (the `str(e)` substring test the
code performs on the caught exception). -/
inductive TransportReply
  | completes
  | raises (is_not_connected_err : Bool)
  deriving DecidableEq

namespace AWSIoTConfig

/-- The configuration object built by `AWSIoTConfig.__init__`.
`client_id_base` and `topic_base` model the source attributes named
after the id/topic leading string (those exact Python attribute names are
not representable here). -/
structure Config where
  endpoint : String
  root_ca_path : String
  cert_path : String
  private_key_path : String
  client_id_base : String
  topic_base : String
  shared_subscription_group : String
  deriving DecidableEq

/-- `AWSIoTConfig.__init__`: every field reads an environment variable
with a default; the three certificate paths default to files inside the
`certs` directory. `env` models `os.getenv`, `certs_dir` the computed
certificate directory. -/
def mk_config (env : String → Option String) (certs_dir : String) : Config :=
  { endpoint := (env "AWS_IOT_ENDPOINT").getD "your-iot-endpoint.iot.region.amazonaws.com"
  , root_ca_path := (env "ROOT_CA_PATH").getD (certs_dir ++ "/AmazonRootCA1.pem")
  , cert_path := (env "CERT_PATH").getD (certs_dir ++ "/device.pem.crt")
  , private_key_path := (env "PRIVATE_KEY_PATH").getD (certs_dir ++ "/private.pem.key")
  , client_id_base := (env "CLIENT_ID_PREFIX").getD "message-queuing-test"
  , topic_base := (env "TOPIC_PREFIX").getD "test/shared"
  , shared_subscription_group := (env "SHARED_GROUP").getD "message-queuing-group" }

/-- `AWSIoTConfig.get_shared_topic`. -/
def get_shared_topic (c : Config) : String :=
  "$share/" ++ c.shared_subscription_group ++ "/" ++ c.topic_base ++ "/messages"

/-- `AWSIoTConfig.get_publish_topic`. -/
def get_publish_topic (c : Config) : String :=
  c.topic_base ++ "/messages"

/-- `AWSIoTConfig.validate`: iterates over the three credential paths and
returns `False` at the first one that does not exist, else `True`.
`fs` models `os.path.exists`. -/
def validate (fs : String → Bool) (c : Config) : Bool :=
  [c.root_ca_path, c.cert_path, c.private_key_path].all fs

end AWSIoTConfig

namespace IoTSharedSubscriber

/-- The decoded JSON message body, as far as `_on_message_received`
inspects it: the optional `"message_id"` field, plus the rest of the
decoded payload kept opaque. -/
structure MessageData where
  message_id : Option String
  body : String
  deriving DecidableEq

/-- One value of the `processed_messages` dict: the record stored under
the message id by `_on_message_received`. -/
structure ReceivedRecord where
  received_at : String
  topic : String
  qos : Nat
  data : MessageData
  deriving DecidableEq

/-- A delivered payload as seen by `_on_message_received` after
`json.loads(payload.decode())`: `invalid` is any payload on which the
decode (or the subsequent `"message_id"` field access) raises, `valid md`
a successfully decoded message. -/
inductive Payload
  | invalid
  | valid (md : MessageData)
  deriving DecidableEq

/-- The mutable attributes of one `IoTSharedSubscriber` object, plus two
pieces of environment state the object does not store but the threads
around it do: `pending_reconnects` counts `reconnect_after_delay` threads
spawned by `simulate_disconnect` that have not yet run, and
`transport_open` records whether the underlying SDK connection is live or
auto-reconnecting (true after a successful `connect()`, false after a
client-requested `disconnect()`); only a live SDK connection can fire the
`on_connection_resumed` callback. Field defaults mirror `__init__`. -/
structure SubscriberState where
  has_connection : Bool := false
  is_connected : Bool := false
  message_count : Nat := 0
  processed_messages : List (String × ReceivedRecord) := []
  should_disconnect : Bool := false
  pending_reconnects : Nat := 0
  transport_open : Bool := false
  deriving DecidableEq, Inhabited

/-- The state of a freshly constructed `IoTSharedSubscriber`. -/
def init_subscriber : SubscriberState := {}

/-- `IoTSharedSubscriber._on_message_received`: decode the payload, read
its `"message_id"` (defaulting to `"unknown"`), then under the lock
increment `message_count` and insert-or-overwrite the keyed record.  A
payload whose decode raises reaches the `except` handler before any
mutation, so the state is returned unchanged — the handler only prints,
it never re-raises, which is why this is a total function. `dup` and
`retain` are accepted and ignored, as in the source. -/
def on_message_received (s : SubscriberState) (topic : String) (p : Payload)
    (dup : Bool) (qos : Nat) (retain : Bool) (now : String) : SubscriberState :=
  match p with
  | Payload.invalid => s
  | Payload.valid md =>
    { s with
      message_count := s.message_count + 1
      processed_messages :=
        dictInsert s.processed_messages (md.message_id.getD "unknown")
          { received_at := now, topic := topic, qos := qos, data := md } }

/-- One invocation of the arrival callback, bundled. -/
structure Arrival where
  topic : String
  payload : Payload
  dup : Bool
  qos : Nat
  retain : Bool
  now : String
  deriving DecidableEq

/-- Apply one arrival callback to the subscriber. -/
def deliver (s : SubscriberState) (a : Arrival) : SubscriberState :=
  on_message_received s a.topic a.payload a.dup a.qos a.retain a.now

/-- Apply a finite sequence of arrival callbacks in order. -/
def deliver_all (s : SubscriberState) (as : List Arrival) : SubscriberState :=
  as.foldl deliver s

/-- The key list of `processed_messages` (`processed_message_ids` in
`get_stats`). -/
def keys (s : SubscriberState) : List String :=
  s.processed_messages.map Prod.fst

/-- A no-id arrival: decodable JSON whose `"message_id"` field is
absent. -/
def NoIdArrival (a : Arrival) : Prop :=
  ∃ md, a.payload = Payload.valid md ∧ md.message_id = none

/-- `IoTSharedSubscriber.connect`: builds the MQTT connection object
(`has_connection`), then either succeeds — connection established and
shared subscription registered — or raises, caught by the handler which
sets `is_connected = False`. `ok` abstracts whether the transport
connect+subscribe round-trip succeeded. -/
def connect (ok : Bool) (s : SubscriberState) : SubscriberState :=
  if ok then
    { s with has_connection := true, is_connected := true, transport_open := true }
  else
    { s with has_connection := true, is_connected := false, transport_open := false }

/-- `IoTSharedSubscriber._on_connection_interrupted`: the transport lost
the connection; the callback records `is_connected = False` (the SDK keeps
auto-reconnecting, so the transport stays live). -/
def on_connection_interrupted (s : SubscriberState) : SubscriberState :=
  { s with is_connected := false }

/-- `IoTSharedSubscriber._on_connection_resumed`: the SDK re-established
an interrupted connection; the callback records `is_connected = True`.
`session_present` is only printed. -/
def on_connection_resumed (s : SubscriberState) (session_present : Bool) :
    SubscriberState :=
  { s with is_connected := true }

/-- `IoTSharedSubscriber.disconnect`, embedded with its exception
behaviour: if a connection object exists and `is_connected`, the
transport's disconnect future is awaited (`TransportReply`); a raised
error is caught, a `NOT_CONNECTED` message is reported as already
disconnected, any other message as a disconnect error, and in every
branch `is_connected` is set to `False` and the function returns
normally.  Result: the new state, whether the transport was contacted,
and whether an unexpected disconnect error was reported. A client
disconnect stops the SDK auto-reconnect, hence `transport_open := false`.
The function always returns `Except.ok`: no branch re-raises. -/
def disconnect (s : SubscriberState) (r : TransportReply) :
    Except String (SubscriberState × Bool × Bool) :=
  if (s.has_connection && s.is_connected) = true then
    match r with
    | TransportReply.completes =>
      Except.ok ({ s with is_connected := false, transport_open := false }, true, false)
    | TransportReply.raises nc =>
      Except.ok ({ s with is_connected := false, transport_open := false }, true, !nc)
  else
    Except.ok (s, false, false)

/-- The value `disconnect` returns on its (always taken) normal path. -/
def disconnect_run (s : SubscriberState) (r : TransportReply) :
    SubscriberState × Bool × Bool :=
  match disconnect s r with
  | Except.ok x => x
  | Except.error _ => (s, false, false)

/-- `IoTSharedSubscriber.simulate_disconnect`: a no-op on a subscriber
that is not connected; otherwise sets `should_disconnect`, disconnects
the transport (every branch of the inner try/except ends with
`is_connected = False`), and spawns one `reconnect_after_delay` thread
(`pending_reconnects + 1`). -/
def simulate_disconnect (s : SubscriberState) : SubscriberState :=
  if s.is_connected = false then s
  else
    { s with
      is_connected := false
      should_disconnect := true
      transport_open := false
      pending_reconnects := s.pending_reconnects + 1 }

/-- The body of `reconnect_after_delay` once its sleep elapses: the
thread is consumed (`pending_reconnects - 1`); if `should_disconnect` is
still set it is cleared and `connect()` is called again (with outcome
`ok`), otherwise nothing else happens. -/
def reconnect_fire (ok : Bool) (s : SubscriberState) : SubscriberState :=
  if s.should_disconnect then
    connect ok
      { s with should_disconnect := false
               pending_reconnects := s.pending_reconnects - 1 }
  else
    { s with pending_reconnects := s.pending_reconnects - 1 }

end IoTSharedSubscriber

namespace IoTMessagePublisher

/-- The mutable attributes of `IoTMessagePublisher` that the publishing
logic reads: whether `mqtt_connection` has been assigned, the
`is_connected` flag, and the `publish_count` counter (incremented only by
the `_on_publish_complete` acknowledgement callback). -/
structure PubState where
  has_connection : Bool := false
  is_connected : Bool := false
  publish_count : Nat := 0
  deriving DecidableEq, Inhabited

/-- The state of a freshly constructed `IoTMessagePublisher`. -/
def init_publisher : PubState := {}

/-- The JSON message body built by `publish_test_message`, projected to
the fields with run-dependent content (`data` is a constant dict and is
elided). -/
structure OutMessage where
  message_id : String
  timestamp : String
  sender : String
  sequence : Nat
  deriving DecidableEq

/-- `IoTMessagePublisher.publish_test_message`: if not connected (or no
connection object), skip — print, return `False`, publish nothing, queue
nothing. Otherwise build the message: `message_id` is the argument or a
fresh UUID (`fresh`), `timestamp` is `datetime.now()` (`now`), `sender`
is the client id `cid`, and `sequence` is `publish_count + 1` — note the
counter itself is NOT incremented here. The publisher object's state is
unchanged in both cases; the second component is the message put on the
wire, if any. -/
def publish_test_message (cid : String) (s : PubState) (mid : Option String)
    (fresh now : String) : PubState × Option OutMessage :=
  if s.is_connected = false ∨ s.has_connection = false then
    (s, none)
  else
    (s, some { message_id := mid.getD fresh
             , timestamp := now
             , sender := cid
             , sequence := s.publish_count + 1 })

/-- `IoTMessagePublisher._on_publish_complete`: when the publish future
resolved successfully, increment `publish_count` under the lock; when it
raised, only print. -/
def on_publish_complete (success : Bool) (s : PubState) : PubState :=
  if success then { s with publish_count := s.publish_count + 1 } else s

/-- One event in a publisher run: a loop tick invoking
`publish_test_message()` (with the fresh UUID and timestamp drawn at that
tick), or the asynchronous arrival of a publish acknowledgement
(`_on_publish_complete`, success or failure). -/
inductive PubEvent
  | tick (fresh : String) (now : String)
  | complete (success : Bool)
  deriving DecidableEq

/-- Run a publisher through a sequence of tick/acknowledgement events,
collecting the messages put on the wire in order. -/
def run_publisher (cid : String) (s : PubState) :
    List PubEvent → PubState × List OutMessage
  | [] => (s, [])
  | PubEvent.tick fresh now :: evs =>
    ((run_publisher cid (publish_test_message cid s none fresh now).1 evs).1,
     (publish_test_message cid s none fresh now).2.toList
       ++ (run_publisher cid (publish_test_message cid s none fresh now).1 evs).2)
  | PubEvent.complete ok :: evs =>
    run_publisher cid (on_publish_complete ok s) evs

/-- The acknowledgement-synchronous schedule: each tick's publish future
completes successfully before the next tick fires. -/
def sync_events : List (String × String) → List PubEvent
  | [] => []
  | (fresh, now) :: rest =>
    PubEvent.tick fresh now :: PubEvent.complete true :: sync_events rest

/-- The loop of `IoTMessagePublisher.start_continuous_publishing`:
`for i in range(max_messages)`, but the body first checks
`is_connected` and BREAKS out of the loop when it is false; otherwise it
calls `publish_test_message()` and sleeps. `connAt i` is the value of
`is_connected` when tick `i` fires (interruption/resumption callbacks may
change it between ticks). The result is the list of tick indices at
which `publish_test_message` was actually invoked. -/
def start_continuous_publishing (connAt : Nat → Bool) : Nat → Nat → List Nat
  | _, 0 => []
  | i, Nat.succ n =>
    if connAt i then i :: start_continuous_publishing connAt (i + 1) n
    else []

/-- `IoTMessagePublisher.disconnect`: same structure as the subscriber's
— only contacts the transport when a connection object exists and
`is_connected`; a raised `NOT_CONNECTED` is normalized to the
already-disconnected message, any other exception is printed as a
disconnect error; every branch returns normally with
`is_connected = False` (or the state untouched when already
disconnected). Result as for the subscriber: state, transport contacted,
unexpected error reported. -/
def disconnect (s : PubState) (r : TransportReply) :
    Except String (PubState × Bool × Bool) :=
  if (s.has_connection && s.is_connected) = true then
    match r with
    | TransportReply.completes =>
      Except.ok ({ s with is_connected := false }, true, false)
    | TransportReply.raises nc =>
      Except.ok ({ s with is_connected := false }, true, !nc)
  else
    Except.ok (s, false, false)

/-- The value `disconnect` returns on its (always taken) normal path. -/
def disconnect_run (s : PubState) (r : TransportReply) :
    PubState × Bool × Bool :=
  match disconnect s r with
  | Except.ok x => x
  | Except.error _ => (s, false, false)

/-- How far `main` of `publisher.py` / `subscriber.py` got. -/
inductive MainResult
  | config_error
  | connect_failed
  | ran
  deriving DecidableEq

/-- `publisher.py main()`: validate the config — on failure return
before any connection attempt; then connect (one attempt); on failure
return; else publish. Result paired with the number of transport
connection attempts made. -/
def main (fs : String → Bool) (c : AWSIoTConfig.Config) (connect_ok : Bool) :
    MainResult × Nat :=
  if AWSIoTConfig.validate fs c = false then (MainResult.config_error, 0)
  else if connect_ok = false then (MainResult.connect_failed, 1)
  else (MainResult.ran, 1)

end IoTMessagePublisher

namespace MultiSubscriberManager

/-- `MultiSubscriberManager.start_all`: connect each subscriber in
sequence, incrementing `success_count` on each successful `connect()`
(with a pacing sleep after each success). `connect_results` lists the
outcome of each subscriber's `connect()` in order. The method prints
`success_count` but RETURNS `success_count > 0`; the pair holds both the
internal counter and the returned boolean. -/
def start_all (connect_results : List Bool) : Nat × Bool :=
  let success_count :=
    connect_results.foldl (fun acc ok => if ok then acc + 1 else acc) 0
  (success_count, decide (success_count > 0))

open IoTSharedSubscriber in
/-- The indices of the pool's currently connected subscribers
(`[s for s in self.subscribers if s.is_connected]` in
`simulate_random_disconnects`, kept as indices). -/
def connected_indices (pool : List SubscriberState) : List Nat :=
  (List.range pool.length).filter (fun i => (pool.getD i default).is_connected)

open IoTSharedSubscriber in
/-- One cycle of `simulate_random_disconnects` after its sleep: collect
the connected subscribers; if there are none the cycle does nothing;
otherwise `random.choice` picks one (modelled by the arbitrary index
`pick` reduced modulo the candidate count) and `simulate_disconnect` is
invoked on it. -/
def simulate_cycle (pick : Nat) (pool : List SubscriberState) :
    List SubscriberState :=
  let conn := connected_indices pool
  match conn.get? (pick % conn.length) with
  | none => pool
  | some t => updateAt pool t simulate_disconnect

open IoTSharedSubscriber in
/-- The interleavings the harness can produce on the subscriber pool
while `simulate_random_disconnects` runs: a simulator cycle, a spawned
`reconnect_after_delay` thread firing (only if such a thread is
pending), a transport interruption, a transport resumption (only while
the SDK connection is live), a `stop_all`-style `disconnect()`, and a
message arrival. -/
inductive PoolStep : List SubscriberState → List SubscriberState → Prop
  | cycle (pool : List SubscriberState) (pick : Nat) :
      PoolStep pool (simulate_cycle pick pool)
  | fire (pool : List SubscriberState) (i : Nat) (ok : Bool)
      (h : 1 ≤ (pool.getD i default).pending_reconnects) :
      PoolStep pool (updateAt pool i (reconnect_fire ok))
  | interrupt (pool : List SubscriberState) (i : Nat) :
      PoolStep pool (updateAt pool i on_connection_interrupted)
  | resume (pool : List SubscriberState) (i : Nat) (sp : Bool)
      (h : (pool.getD i default).transport_open = true) :
      PoolStep pool (updateAt pool i (fun s => on_connection_resumed s sp))
  | stopd (pool : List SubscriberState) (i : Nat) (r : TransportReply) :
      PoolStep pool (updateAt pool i (fun s => (disconnect_run s r).1))
  | arrive (pool : List SubscriberState) (i : Nat) (a : Arrival) :
      PoolStep pool (updateAt pool i (fun s => deliver s a))

open IoTSharedSubscriber in
/-- Pool states reachable in a run of `subscriber.py main()`: the pool
right after `start_all` (each subscriber freshly constructed and then
connected with its own outcome), closed under the harness steps. -/
inductive Reachable : List SubscriberState → Prop
  | init (outcomes : List Bool) :
      Reachable (outcomes.map (fun ok => connect ok init_subscriber))
  | step {p q : List SubscriberState} :
      Reachable p → PoolStep p q → Reachable q

open IoTSharedSubscriber in
/-- The per-subscriber outage invariant: a subscriber mid simulated
outage (`should_disconnect`) is disconnected with its transport closed,
and the number of pending reconnect threads is one during an outage and
zero otherwise. -/
def OutageInv (s : SubscriberState) : Prop :=
  (s.should_disconnect = true → s.is_connected = false ∧ s.transport_open = false)
  ∧ s.pending_reconnects = (if s.should_disconnect then 1 else 0)

/-- `subscriber.py main()`: validate the config — on failure return
before any connection attempt; then `start_all` (one connect attempt per
subscriber); if it returns `False` (no subscriber connected) return;
else run. Result paired with the number of transport connection
attempts. -/
def main (fs : String → Bool) (c : AWSIoTConfig.Config)
    (connect_results : List Bool) : IoTMessagePublisher.MainResult × Nat :=
  if AWSIoTConfig.validate fs c = false then
    (IoTMessagePublisher.MainResult.config_error, 0)
  else if (start_all connect_results).2 = false then
    (IoTMessagePublisher.MainResult.connect_failed, connect_results.length)
  else (IoTMessagePublisher.MainResult.ran, connect_results.length)

end MultiSubscriberManager

/-! ## Helper lemmas -/

theorem overwrite_map_keys {α : Type} (k : String) (v : α)
    (m : List (String × α)) :
    (m.map (fun p => if p.1 = k then (k, v) else p)).map Prod.fst
      = m.map Prod.fst := by
  induction m with
  | nil => rfl
  | cons p t ih =>
    simp only [List.map_cons, ih]
    by_cases h : p.1 = k <;> simp [h]

theorem keys_dictInsert_mem {α : Type} {k : String} (v : α)
    {m : List (String × α)} (h : k ∈ m.map Prod.fst) :
    (dictInsert m k v).map Prod.fst = m.map Prod.fst := by
  rw [dictInsert, if_pos h, overwrite_map_keys]

theorem keys_dictInsert_not_mem {α : Type} {k : String} (v : α)
    {m : List (String × α)} (h : k ∉ m.map Prod.fst) :
    (dictInsert m k v).map Prod.fst = m.map Prod.fst ++ [k] := by
  rw [dictInsert, if_neg h]
  simp

theorem length_dictInsert_mem {α : Type} {k : String} (v : α)
    {m : List (String × α)} (h : k ∈ m.map Prod.fst) :
    (dictInsert m k v).length = m.length := by
  rw [dictInsert, if_pos h, List.length_map]

theorem length_dictInsert_le {α : Type} (k : String) (v : α)
    (m : List (String × α)) :
    (dictInsert m k v).length ≤ m.length + 1 := by
  by_cases h : k ∈ m.map Prod.fst
  · rw [length_dictInsert_mem v h]; omega
  · rw [dictInsert, if_neg h, List.length_append]; simp

theorem mem_keys_dictInsert_self {α : Type} (k : String) (v : α)
    (m : List (String × α)) :
    k ∈ (dictInsert m k v).map Prod.fst := by
  by_cases h : k ∈ m.map Prod.fst
  · rw [keys_dictInsert_mem v h]; exact h
  · rw [keys_dictInsert_not_mem v h]; simp

theorem dictGet_append_of_not_mem {α : Type} {k : String}
    {m : List (String × α)} (l : List (String × α))
    (h : k ∉ m.map Prod.fst) :
    dictGet (m ++ l) k = dictGet l k := by
  induction m with
  | nil => rfl
  | cons p t ih =>
    have hp : ¬p.1 = k := by
      intro hk
      exact h (by simp [hk])
    have ht : k ∉ t.map Prod.fst := by
      intro hk
      exact h (by simp [hk])
    simp only [List.cons_append, dictGet, if_neg hp]
    exact ih ht

theorem dictGet_overwrite {α : Type} {k : String} (v : α)
    {m : List (String × α)} (h : k ∈ m.map Prod.fst) :
    dictGet (m.map (fun p => if p.1 = k then (k, v) else p)) k = some v := by
  induction m with
  | nil => simp at h
  | cons p t ih =>
    by_cases hp : p.1 = k
    · simp [dictGet, hp]
    · have ht : k ∈ t.map Prod.fst := by
        rcases (List.mem_map).1 h with ⟨q, hq, hqk⟩
        rcases List.mem_cons.1 hq with rfl | hq'
        · exact absurd hqk hp
        · exact hqk ▸ List.mem_map_of_mem Prod.fst hq'
      simp only [List.map_cons, if_neg hp, dictGet]
      exact ih ht

theorem dictGet_dictInsert_self {α : Type} (k : String) (v : α)
    (m : List (String × α)) :
    dictGet (dictInsert m k v) k = some v := by
  by_cases h : k ∈ m.map Prod.fst
  · rw [dictInsert, if_pos h]
    exact dictGet_overwrite v h
  · rw [dictInsert, if_neg h, dictGet_append_of_not_mem _ h]
    simp [dictGet]

theorem mem_updateAt {α : Type} [Inhabited α] {l : List α} {i : Nat}
    {f : α → α} {x : α} (hx : x ∈ updateAt l i f) :
    x ∈ l ∨ (i < l.length ∧ x = f (l.getD i default)) := by
  induction l generalizing i with
  | nil => simp [updateAt] at hx
  | cons y t ih =>
    cases i with
    | zero =>
      rcases List.mem_cons.1 hx with rfl | hx'
      · right
        exact ⟨by simp, rfl⟩
      · left
        exact List.mem_cons_of_mem _ hx'
    | succ n =>
      rcases List.mem_cons.1 hx with rfl | hx'
      · left
        exact List.mem_cons_self _ _
      · rcases ih hx' with hmem | ⟨hn, hfx⟩
        · left
          exact List.mem_cons_of_mem _ hmem
        · right
          exact ⟨by simpa using Nat.succ_lt_succ hn, by simpa using hfx⟩

theorem getD_mem_of_lt {α : Type} [Inhabited α] {l : List α} {i : Nat}
    (h : i < l.length) : l.getD i default ∈ l := by
  induction l generalizing i with
  | nil => simp at h
  | cons y t ih =>
    cases i with
    | zero => simp
    | succ n =>
      simp only [List.getD_cons_succ]
      exact List.mem_cons_of_mem _ (ih (by simpa using Nat.lt_of_succ_lt_succ h))

theorem countUp_length (start n : Nat) : (countUp start n).length = n := by
  induction n generalizing start with
  | zero => rfl
  | succ m ih => simp [countUp, ih]

/-! ## Tracker lemmas (subscriber message bookkeeping) -/

namespace IoTSharedSubscriber

theorem deliver_tracker_inv (s : SubscriberState) (a : Arrival)
    (h : (keys s).length ≤ s.message_count) :
    (keys (deliver s a)).length ≤ (deliver s a).message_count := by
  cases hp : a.payload with
  | invalid => simpa [deliver, on_message_received, hp] using h
  | valid md =>
    simp only [keys, List.length_map] at h
    simp only [deliver, on_message_received, hp, keys, List.length_map]
    exact le_trans (length_dictInsert_le _ _ _) (by omega)

theorem deliver_all_tracker_inv (as : List Arrival) :
    ∀ s : SubscriberState, (keys s).length ≤ s.message_count →
      (keys (deliver_all s as)).length ≤ (deliver_all s as).message_count := by
  induction as with
  | nil => intro s h; exact h
  | cons a t ih =>
    intro s h
    exact ih (deliver s a) (deliver_tracker_inv s a h)

theorem deliver_no_id (s : SubscriberState) {a : Arrival} {md : MessageData}
    (hpa : a.payload = Payload.valid md) (hmd : md.message_id = none) :
    deliver s a =
      { s with
        message_count := s.message_count + 1
        processed_messages :=
          dictInsert s.processed_messages "unknown"
            { received_at := a.now, topic := a.topic, qos := a.qos, data := md } } := by
  simp [deliver, on_message_received, hpa, hmd]

theorem deliver_all_no_id_stable (as : List Arrival) :
    ∀ s : SubscriberState, (∀ a ∈ as, NoIdArrival a) →
      "unknown" ∈ keys s →
      (deliver_all s as).processed_messages.length = s.processed_messages.length
      ∧ "unknown" ∈ keys (deliver_all s as)
      ∧ (deliver_all s as).message_count = s.message_count + as.length := by
  induction as with
  | nil => intro s _ hu; exact ⟨rfl, hu, rfl⟩
  | cons a t ih =>
    intro s hall hu
    obtain ⟨md, hpa, hmd⟩ := hall a (List.mem_cons_self a t)
    have hstep : deliver_all s (a :: t) = deliver_all (deliver s a) t := rfl
    rw [hstep, deliver_no_id s hpa hmd]
    have hrec := ih
      { s with
        message_count := s.message_count + 1
        processed_messages :=
          dictInsert s.processed_messages "unknown"
            { received_at := a.now, topic := a.topic, qos := a.qos, data := md } }
      (fun b hb => hall b (List.mem_cons_of_mem a hb))
      (by simpa [keys] using mem_keys_dictInsert_self "unknown" _ s.processed_messages)
    refine ⟨?_, hrec.2.1, ?_⟩
    · rw [hrec.1]
      exact length_dictInsert_mem _ (by simpa [keys] using hu)
    · rw [hrec.2.2]
      simp [List.length_cons]
      omega

end IoTSharedSubscriber

/-! ## Disconnect lemmas -/

theorem sub_disconnect_never_raises (s : IoTSharedSubscriber.SubscriberState)
    (r : TransportReply) :
    IoTSharedSubscriber.disconnect s r
      = Except.ok (IoTSharedSubscriber.disconnect_run s r) := by
  by_cases h : (s.has_connection && s.is_connected) = true
  · cases r <;>
      simp [IoTSharedSubscriber.disconnect, IoTSharedSubscriber.disconnect_run, h]
  · simp [IoTSharedSubscriber.disconnect, IoTSharedSubscriber.disconnect_run, h]

theorem pub_disconnect_never_raises (s : IoTMessagePublisher.PubState)
    (r : TransportReply) :
    IoTMessagePublisher.disconnect s r
      = Except.ok (IoTMessagePublisher.disconnect_run s r) := by
  by_cases h : (s.has_connection && s.is_connected) = true
  · cases r <;>
      simp [IoTMessagePublisher.disconnect, IoTMessagePublisher.disconnect_run, h]
  · simp [IoTMessagePublisher.disconnect, IoTMessagePublisher.disconnect_run, h]

theorem sub_run_not_connected (s : IoTSharedSubscriber.SubscriberState)
    (r : TransportReply) (h : s.is_connected = false) :
    IoTSharedSubscriber.disconnect_run s r = (s, false, false) := by
  simp [IoTSharedSubscriber.disconnect_run, IoTSharedSubscriber.disconnect, h]

theorem pub_run_not_connected (s : IoTMessagePublisher.PubState)
    (r : TransportReply) (h : s.is_connected = false) :
    IoTMessagePublisher.disconnect_run s r = (s, false, false) := by
  simp [IoTMessagePublisher.disconnect_run, IoTMessagePublisher.disconnect, h]

theorem sub_run_disconnects (s : IoTSharedSubscriber.SubscriberState)
    (r : TransportReply) (hconn : s.is_connected = true → s.has_connection = true) :
    (IoTSharedSubscriber.disconnect_run s r).1.is_connected = false := by
  by_cases hi : s.is_connected = true
  · have hh := hconn hi
    cases r <;>
      simp [IoTSharedSubscriber.disconnect_run, IoTSharedSubscriber.disconnect, hi, hh]
  · rw [sub_run_not_connected s r (by simpa using hi)]
    simpa using hi

theorem pub_run_disconnects (s : IoTMessagePublisher.PubState)
    (r : TransportReply) (hconn : s.is_connected = true → s.has_connection = true) :
    (IoTMessagePublisher.disconnect_run s r).1.is_connected = false := by
  by_cases hi : s.is_connected = true
  · have hh := hconn hi
    cases r <;>
      simp [IoTMessagePublisher.disconnect_run, IoTMessagePublisher.disconnect, hi, hh]
  · rw [pub_run_not_connected s r (by simpa using hi)]
    simpa using hi

theorem sub_run_not_connected_err (s : IoTSharedSubscriber.SubscriberState)
    (hi : s.is_connected = true) (hh : s.has_connection = true) :
    IoTSharedSubscriber.disconnect_run s (TransportReply.raises true)
      = ({ s with is_connected := false, transport_open := false }, true, false) := by
  simp [IoTSharedSubscriber.disconnect_run, IoTSharedSubscriber.disconnect, hi, hh]

theorem pub_run_not_connected_err (s : IoTMessagePublisher.PubState)
    (hi : s.is_connected = true) (hh : s.has_connection = true) :
    IoTMessagePublisher.disconnect_run s (TransportReply.raises true)
      = ({ s with is_connected := false }, true, false) := by
  simp [IoTMessagePublisher.disconnect_run, IoTMessagePublisher.disconnect, hi, hh]

/-! ## Claim theorems -/

open IoTSharedSubscriber in
/-- C1: for every subscriber state satisfying the tracker invariant (in
particular a fresh subscriber) and every finite sequence of
message-arrival callbacks, after the sequence completes
`message_count >= |keys of processed_messages|` still holds: each arrival
increments `message_count` by one and inserts at most one new key, and a
failed decode changes nothing. -/
theorem claim_C1 (s : SubscriberState) (as : List Arrival)
    (h : (keys s).length ≤ s.message_count) :
    (keys (deliver_all s as)).length ≤ (deliver_all s as).message_count :=
  deliver_all_tracker_inv as s h

open IoTSharedSubscriber in
theorem claim_C1_witness :
    (keys init_subscriber).length ≤ init_subscriber.message_count
    ∧ (keys (deliver_all init_subscriber
        [⟨"t/messages", Payload.valid ⟨some "m1", "b"⟩, false, 1, false, "now"⟩])).length
      ≤ (deliver_all init_subscriber
        [⟨"t/messages", Payload.valid ⟨some "m1", "b"⟩, false, 1, false, "now"⟩]).message_count :=
  ⟨by decide, claim_C1 init_subscriber _ (by decide)⟩

open IoTSharedSubscriber in
/-- C2: delivering the arrival callback twice with the same effective
`message_id` increments `message_count` both times, leaves the number of
`processed_messages` entries unchanged after the second call, and the
second delivery overwrites the keyed record with its own. -/
theorem claim_C2 (s : SubscriberState)
    (t1 : String) (md1 : MessageData) (d1 : Bool) (q1 : Nat) (r1 : Bool) (n1 : String)
    (t2 : String) (md2 : MessageData) (d2 : Bool) (q2 : Nat) (r2 : Bool) (n2 : String)
    (hid : md1.message_id = md2.message_id) :
    (on_message_received (on_message_received s t1 (Payload.valid md1) d1 q1 r1 n1)
        t2 (Payload.valid md2) d2 q2 r2 n2).message_count = s.message_count + 2
    ∧ (on_message_received (on_message_received s t1 (Payload.valid md1) d1 q1 r1 n1)
        t2 (Payload.valid md2) d2 q2 r2 n2).processed_messages.length
      = (on_message_received s t1 (Payload.valid md1) d1 q1 r1 n1).processed_messages.length
    ∧ dictGet (on_message_received (on_message_received s t1 (Payload.valid md1) d1 q1 r1 n1)
        t2 (Payload.valid md2) d2 q2 r2 n2).processed_messages
        (md2.message_id.getD "unknown")
      = some { received_at := n2, topic := t2, qos := q2, data := md2 } := by
  refine ⟨?_, ?_, ?_⟩
  · simp [on_message_received]
  · simp only [on_message_received]
    apply length_dictInsert_mem
    rw [← hid]
    exact mem_keys_dictInsert_self _ _ _
  · simp only [on_message_received]
    exact dictGet_dictInsert_self _ _ _

open IoTSharedSubscriber in
theorem claim_C2_witness :
    (on_message_received (on_message_received init_subscriber
        "t/messages" (Payload.valid ⟨some "m1", "b1"⟩) false 1 false "n1")
        "t/messages" (Payload.valid ⟨some "m1", "b2"⟩) true 1 false "n2").message_count
      = init_subscriber.message_count + 2
    ∧ (on_message_received (on_message_received init_subscriber
        "t/messages" (Payload.valid ⟨some "m1", "b1"⟩) false 1 false "n1")
        "t/messages" (Payload.valid ⟨some "m1", "b2"⟩) true 1 false "n2").processed_messages.length
      = (on_message_received init_subscriber
        "t/messages" (Payload.valid ⟨some "m1", "b1"⟩) false 1 false "n1").processed_messages.length
    ∧ dictGet (on_message_received (on_message_received init_subscriber
        "t/messages" (Payload.valid ⟨some "m1", "b1"⟩) false 1 false "n1")
        "t/messages" (Payload.valid ⟨some "m1", "b2"⟩) true 1 false "n2").processed_messages
        ((some "m1").getD "unknown")
      = some { received_at := "n2", topic := "t/messages", qos := 1
             , data := (⟨some "m1", "b2"⟩ : MessageData) } :=
  claim_C2 init_subscriber "t/messages" ⟨some "m1", "b1"⟩ false 1 false "n1"
    "t/messages" ⟨some "m1", "b2"⟩ true 1 false "n2" rfl

open IoTSharedSubscriber in
/-- C9: an arrival whose payload is not decodable JSON leaves the tracker
state unchanged (`message_count` and `processed_messages` keep their
prior values exactly): the decode happens before any mutation, and the
surrounding `except` handler swallows the exception, so the embedded
callback is a total function returning the input state. -/
theorem claim_C9 (s : SubscriberState) (topic : String) (dup : Bool)
    (qos : Nat) (retain : Bool) (now : String) :
    on_message_received s topic Payload.invalid dup qos retain now = s := rfl

open IoTSharedSubscriber in
/-- C10: arrivals whose JSON payload lacks a `"message_id"` field are
recorded under the single literal key `"unknown"`: each still increments
`message_count` by one, but any number of them add at most one entry to
`processed_messages`, and after at least one of them the key `"unknown"`
is present. -/
theorem claim_C10 (s : SubscriberState) (as : List Arrival)
    (h : ∀ a ∈ as, NoIdArrival a) :
    (deliver_all s as).message_count = s.message_count + as.length
    ∧ (deliver_all s as).processed_messages.length ≤ s.processed_messages.length + 1
    ∧ (as ≠ [] → "unknown" ∈ keys (deliver_all s as)) := by
  cases as with
  | nil => exact ⟨rfl, Nat.le_add_right _ 1, fun hne => absurd rfl hne⟩
  | cons a t =>
    obtain ⟨md, hpa, hmd⟩ := h a (List.mem_cons_self a t)
    have hstep : deliver_all s (a :: t) = deliver_all (deliver s a) t := rfl
    rw [hstep, deliver_no_id s hpa hmd]
    have hrec := deliver_all_no_id_stable t
      { s with
        message_count := s.message_count + 1
        processed_messages :=
          dictInsert s.processed_messages "unknown"
            { received_at := a.now, topic := a.topic, qos := a.qos, data := md } }
      (fun b hb => h b (List.mem_cons_of_mem a hb))
      (by simpa [keys] using mem_keys_dictInsert_self "unknown" _ s.processed_messages)
    refine ⟨?_, ?_, fun _ => hrec.2.1⟩
    · rw [hrec.2.2]
      simp [List.length_cons]
      omega
    · rw [hrec.1]
      exact length_dictInsert_le _ _ _

open IoTSharedSubscriber in
theorem claim_C10_witness :
    (deliver_all init_subscriber
        [⟨"t/messages", Payload.valid ⟨none, "b1"⟩, false, 1, false, "n1"⟩,
         ⟨"t/messages", Payload.valid ⟨none, "b2"⟩, false, 1, false, "n2"⟩]).message_count
      = init_subscriber.message_count + 2
    ∧ (deliver_all init_subscriber
        [⟨"t/messages", Payload.valid ⟨none, "b1"⟩, false, 1, false, "n1"⟩,
         ⟨"t/messages", Payload.valid ⟨none, "b2"⟩, false, 1, false, "n2"⟩]).processed_messages.length
      ≤ init_subscriber.processed_messages.length + 1
    ∧ (([⟨"t/messages", Payload.valid ⟨none, "b1"⟩, false, 1, false, "n1"⟩,
         ⟨"t/messages", Payload.valid ⟨none, "b2"⟩, false, 1, false, "n2"⟩] : List Arrival) ≠ [] →
        "unknown" ∈ keys (deliver_all init_subscriber
          [⟨"t/messages", Payload.valid ⟨none, "b1"⟩, false, 1, false, "n1"⟩,
           ⟨"t/messages", Payload.valid ⟨none, "b2"⟩, false, 1, false, "n2"⟩])) :=
  claim_C10 init_subscriber _ (by
    intro a ha
    simp only [List.mem_cons, List.not_mem_nil, or_false] at ha
    rcases ha with rfl | rfl
    · exact ⟨⟨none, "b1"⟩, rfl, rfl⟩
    · exact ⟨⟨none, "b2"⟩, rfl, rfl⟩)

/-- C3: `disconnect()` is idempotent for both manager kinds. Embedded
statement: (1) neither manager's `disconnect` ever raises — it always
returns `Except.ok` of its normal result, for a first and a second call
in a row; (2) when already disconnected it returns successfully without
contacting the transport and without touching the state; (3) after a
first `disconnect` the manager's `is_connected` is false, so a second
call in a row also succeeds, contacts nothing and reports no error;
(4) a transport `NOT_CONNECTED` error reply is normalized to success:
no error is reported and `is_connected` is left false. The hypotheses
say only that a connected manager has a connection object, which holds
of every state the code can produce. -/
theorem claim_C3 (sp : IoTMessagePublisher.PubState)
    (ss : IoTSharedSubscriber.SubscriberState) (r1 r2 : TransportReply)
    (hp : sp.is_connected = true → sp.has_connection = true)
    (hs : ss.is_connected = true → ss.has_connection = true) :
    (IoTMessagePublisher.disconnect sp r1
        = Except.ok (IoTMessagePublisher.disconnect_run sp r1)
      ∧ IoTMessagePublisher.disconnect (IoTMessagePublisher.disconnect_run sp r1).1 r2
        = Except.ok (IoTMessagePublisher.disconnect_run
            (IoTMessagePublisher.disconnect_run sp r1).1 r2)
      ∧ IoTSharedSubscriber.disconnect ss r1
        = Except.ok (IoTSharedSubscriber.disconnect_run ss r1)
      ∧ IoTSharedSubscriber.disconnect (IoTSharedSubscriber.disconnect_run ss r1).1 r2
        = Except.ok (IoTSharedSubscriber.disconnect_run
            (IoTSharedSubscriber.disconnect_run ss r1).1 r2))
    ∧ (sp.is_connected = false →
        IoTMessagePublisher.disconnect_run sp r1 = (sp, false, false))
    ∧ (ss.is_connected = false →
        IoTSharedSubscriber.disconnect_run ss r1 = (ss, false, false))
    ∧ ((IoTMessagePublisher.disconnect_run sp r1).1.is_connected = false
      ∧ IoTMessagePublisher.disconnect_run (IoTMessagePublisher.disconnect_run sp r1).1 r2
        = ((IoTMessagePublisher.disconnect_run sp r1).1, false, false))
    ∧ ((IoTSharedSubscriber.disconnect_run ss r1).1.is_connected = false
      ∧ IoTSharedSubscriber.disconnect_run (IoTSharedSubscriber.disconnect_run ss r1).1 r2
        = ((IoTSharedSubscriber.disconnect_run ss r1).1, false, false))
    ∧ (sp.is_connected = true →
        IoTMessagePublisher.disconnect_run sp (TransportReply.raises true)
          = ({ sp with is_connected := false }, true, false))
    ∧ (ss.is_connected = true →
        IoTSharedSubscriber.disconnect_run ss (TransportReply.raises true)
          = ({ ss with is_connected := false, transport_open := false }, true, false)) := by
  refine ⟨⟨pub_disconnect_never_raises sp r1, pub_disconnect_never_raises _ r2,
           sub_disconnect_never_raises ss r1, sub_disconnect_never_raises _ r2⟩,
          fun h => pub_run_not_connected sp r1 h,
          fun h => sub_run_not_connected ss r1 h,
          ⟨pub_run_disconnects sp r1 hp,
           pub_run_not_connected _ r2 (pub_run_disconnects sp r1 hp)⟩,
          ⟨sub_run_disconnects ss r1 hs,
           sub_run_not_connected _ r2 (sub_run_disconnects ss r1 hs)⟩,
          fun h => pub_run_not_connected_err sp h (hp h),
          fun h => sub_run_not_connected_err ss h (hs h)⟩

theorem claim_C3_witness :
    IoTMessagePublisher.disconnect_run ⟨true, true, 5⟩ (TransportReply.raises true)
      = (⟨true, false, 5⟩, true, false) :=
  (claim_C3 ⟨true, true, 5⟩
    (IoTSharedSubscriber.connect true IoTSharedSubscriber.init_subscriber)
    (TransportReply.raises true) TransportReply.completes
    (fun _ => rfl) (fun _ => rfl)).2.2.2.2.2.1 rfl

/-! ## Publisher lemmas -/

namespace IoTMessagePublisher

theorem publish_state_eq (cid : String) (s : PubState) (mid : Option String)
    (fresh now : String) :
    (publish_test_message cid s mid fresh now).1 = s := by
  simp only [publish_test_message]
  split <;> rfl

theorem loop_length_le (connAt : Nat → Bool) :
    ∀ (n i : Nat), (start_continuous_publishing connAt i n).length ≤ n := by
  intro n
  induction n with
  | zero => intro i; simp [start_continuous_publishing]
  | succ m ih =>
    intro i
    by_cases h : connAt i = true
    · simp only [start_continuous_publishing, if_pos h, List.length_cons]
      exact Nat.succ_le_succ (ih (i + 1))
    · simp [start_continuous_publishing, h]

theorem loop_all_connected (connAt : Nat → Bool) :
    ∀ (n i : Nat), (∀ j, j < n → connAt (i + j) = true) →
      start_continuous_publishing connAt i n = countUp i n := by
  intro n
  induction n with
  | zero => intro i _; rfl
  | succ m ih =>
    intro i hall
    have h0 : connAt i = true := by simpa using hall 0 (Nat.succ_pos m)
    simp only [start_continuous_publishing, if_pos h0, countUp]
    congr 1
    exact ih (i + 1) (fun j hj => by
      have := hall (j + 1) (Nat.succ_lt_succ hj)
      rwa [show i + (j + 1) = i + 1 + j by omega] at this)

theorem loop_stops_at_first_disconnected (connAt : Nat → Bool) :
    ∀ (k n i : Nat), k < n → (∀ j, j < k → connAt (i + j) = true) →
      connAt (i + k) = false →
      start_continuous_publishing connAt i n = countUp i k := by
  intro k
  induction k with
  | zero =>
    intro n i hk _ hf
    cases n with
    | zero => omega
    | succ m =>
      have hf' : connAt i = false := by simpa using hf
      simp [start_continuous_publishing, hf', countUp]
  | succ kk ih =>
    intro n i hk hall hf
    cases n with
    | zero => omega
    | succ m =>
      have h0 : connAt i = true := by simpa using hall 0 (Nat.succ_pos kk)
      simp only [start_continuous_publishing, if_pos h0, countUp]
      congr 1
      exact ih m (i + 1) (by omega)
        (fun j hj => by
          have := hall (j + 1) (Nat.succ_lt_succ hj)
          rwa [show i + (j + 1) = i + 1 + j by omega] at this)
        (by
          have : i + (kk + 1) = i + 1 + kk := by omega
          rwa [this] at hf)

theorem run_publisher_lb (cid : String) (evs : List PubEvent) :
    ∀ (s : PubState), ∀ m ∈ (run_publisher cid s evs).2,
      s.publish_count + 1 ≤ m.sequence := by
  induction evs with
  | nil => intro s m hm; simp [run_publisher] at hm
  | cons e t ih =>
    intro s m hm
    cases e with
    | tick fresh now =>
      simp only [run_publisher, publish_state_eq] at hm
      rcases List.mem_append.1 hm with h1 | h2
      · by_cases hc : s.is_connected = false ∨ s.has_connection = false
        · simp [publish_test_message, hc] at h1
        · simp [publish_test_message, hc] at h1
          rw [h1]
      · exact ih s m h2
    | complete ok =>
      simp only [run_publisher] at hm
      have hle := ih (on_publish_complete ok s) m hm
      have hmono : s.publish_count ≤ (on_publish_complete ok s).publish_count := by
        cases ok <;> simp [on_publish_complete]
      omega

theorem run_publisher_chain (cid : String) (evs : List PubEvent) :
    ∀ s : PubState,
      List.Chain' (· ≤ ·) ((run_publisher cid s evs).2.map OutMessage.sequence) := by
  induction evs with
  | nil => intro s; simp [run_publisher]
  | cons e t ih =>
    intro s
    cases e with
    | complete ok => simpa [run_publisher] using ih (on_publish_complete ok s)
    | tick fresh now =>
      simp only [run_publisher, publish_state_eq]
      by_cases hc : s.is_connected = false ∨ s.has_connection = false
      · simpa [publish_test_message, hc] using ih s
      · simp only [publish_test_message, if_neg hc, Option.toList_some,
          List.singleton_append, List.map_cons]
        rw [List.chain'_cons']
        refine ⟨?_, ih s⟩
        intro y hy
        have hy' := List.mem_of_mem_head? hy
        rcases List.mem_map.1 hy' with ⟨m, hm, rfl⟩
        exact run_publisher_lb cid t s m hm

theorem run_publisher_sync (cid : String) (ps : List (String × String)) :
    ∀ s : PubState, s.is_connected = true → s.has_connection = true →
      (run_publisher cid s (sync_events ps)).2.map OutMessage.sequence
        = countUp (s.publish_count + 1) ps.length
      ∧ (run_publisher cid s (sync_events ps)).2.map OutMessage.message_id
        = ps.map Prod.fst := by
  induction ps with
  | nil => intro s _ _; simp [sync_events, run_publisher, countUp]
  | cons p t ih =>
    obtain ⟨fresh, now⟩ := p
    intro s hc hh
    have hcond : ¬(s.is_connected = false ∨ s.has_connection = false) := by
      simp [hc, hh]
    have hrec := ih { s with publish_count := s.publish_count + 1 }
      (by simpa using hc) (by simpa using hh)
    have hcomp : on_publish_complete true s
        = { s with publish_count := s.publish_count + 1 } := rfl
    simp only [sync_events, run_publisher, publish_state_eq, hcomp,
      publish_test_message, if_neg hcond, Option.toList_some, Option.getD_none,
      List.singleton_append, List.map_cons, List.length_cons, countUp]
    refine ⟨?_, ?_⟩
    · rw [hrec.1]
    · rw [hrec.2]

end IoTMessagePublisher

open IoTMessagePublisher in
/-- C4 counterexample: with the connection up at tick 0 and down at tick
1, a loop of `max_messages = 2` invokes `publish_test_message` only at
tick 0 and then terminates — it does NOT skip the disconnected tick and
proceed, so it runs 1 tick, not the 2 the claim requires. -/
theorem claim_C4_counterexample :
    start_continuous_publishing (fun i => decide (i = 0)) 0 2 = [0]
    ∧ (start_continuous_publishing (fun i => decide (i = 0)) 0 2).length ≠ 2 := by
  constructor <;> decide

open IoTMessagePublisher in
/-- C4 amended: the publisher loop runs AT MOST `max_messages` ticks; it
runs exactly `max_messages` ticks when `is_connected` holds at every
tick, but it breaks out of the loop at the first tick at which
`is_connected` is false (executing exactly the ticks before it) instead
of skipping that tick and proceeding. The skip-without-queueing behaviour
belongs to `publish_test_message` itself: invoked while disconnected it
publishes nothing, changes nothing and returns failure. -/
theorem claim_C4_amended (connAt : Nat → Bool) (maxMessages : Nat) :
    (start_continuous_publishing connAt 0 maxMessages).length ≤ maxMessages
    ∧ ((∀ i, i < maxMessages → connAt i = true) →
        start_continuous_publishing connAt 0 maxMessages = countUp 0 maxMessages
        ∧ (start_continuous_publishing connAt 0 maxMessages).length = maxMessages)
    ∧ (∀ k, k < maxMessages → (∀ i, i < k → connAt i = true) → connAt k = false →
        start_continuous_publishing connAt 0 maxMessages = countUp 0 k
        ∧ (start_continuous_publishing connAt 0 maxMessages).length = k)
    ∧ (∀ (cid : String) (s : PubState) (mid : Option String) (fresh now : String),
        s.is_connected = false →
        publish_test_message cid s mid fresh now = (s, none)) := by
  refine ⟨loop_length_le connAt maxMessages 0, ?_, ?_, ?_⟩
  · intro hall
    have h := loop_all_connected connAt maxMessages 0
      (fun j hj => by simpa using hall j hj)
    exact ⟨h, by rw [h, countUp_length]⟩
  · intro k hk hall hf
    have h := loop_stops_at_first_disconnected connAt k maxMessages 0 hk
      (fun j hj => by simpa using hall j hj) (by simpa using hf)
    exact ⟨h, by rw [h, countUp_length]⟩
  · intro cid s mid fresh now h
    simp [publish_test_message, h]

open IoTMessagePublisher in
theorem claim_C4_witness :
    start_continuous_publishing (fun _ => true) 0 2 = countUp 0 2
    ∧ (start_continuous_publishing (fun _ => true) 0 2).length = 2 :=
  (claim_C4_amended (fun _ => true) 2).2.1 (fun i _ => rfl)

open IoTMessagePublisher in
/-- C5 counterexample: from a connected publisher, the trace
tick — failed acknowledgement — tick is two distinct publish attempts
(distinct fresh UUIDs "a" and "b"), yet both carry sequence 1, because
`sequence` is `publish_count + 1` and `publish_count` is only advanced by
a successful `_on_publish_complete`. The claimed strict per-attempt
increase is therefore false. -/
theorem claim_C5_counterexample :
    ((run_publisher "pub" ⟨true, true, 0⟩
        [PubEvent.tick "a" "t1", PubEvent.complete false,
         PubEvent.tick "b" "t2"]).2.map OutMessage.sequence = [1, 1])
    ∧ ((run_publisher "pub" ⟨true, true, 0⟩
        [PubEvent.tick "a" "t1", PubEvent.complete false,
         PubEvent.tick "b" "t2"]).2.map OutMessage.message_id = ["a", "b"])
    ∧ ¬ ([1, 1] : List Nat).Nodup := by
  refine ⟨by decide, by decide, by decide⟩

open IoTMessagePublisher in
/-- C5 amended: each publish attempt embeds
`sequence = publish_count + 1`, where `publish_count` counts the
publishes acknowledged successful so far — not a per-attempt counter. So
over ANY interleaving of ticks and acknowledgements the emitted sequence
values are non-decreasing, and in the acknowledgement-synchronous
schedule (each publish acknowledged before the next tick) they are
exactly `publish_count+1, publish_count+2, ...` — strictly increasing
and gap-free — with each message carrying the fresh UUID drawn at its
tick as `message_id`; but distinct attempts may repeat a sequence value
when an acknowledgement is missing or failed. -/
theorem claim_C5_amended (cid : String) (s : PubState) (evs : List PubEvent)
    (hc : s.is_connected = true) (hh : s.has_connection = true) :
    List.Chain' (· ≤ ·) ((run_publisher cid s evs).2.map OutMessage.sequence)
    ∧ (∀ ps : List (String × String),
        (run_publisher cid s (sync_events ps)).2.map OutMessage.sequence
          = countUp (s.publish_count + 1) ps.length
        ∧ (run_publisher cid s (sync_events ps)).2.map OutMessage.message_id
          = ps.map Prod.fst) :=
  ⟨run_publisher_chain cid evs s, fun ps => run_publisher_sync cid ps s hc hh⟩

open IoTMessagePublisher in
theorem claim_C5_witness :
    (run_publisher "pub" ⟨true, true, 0⟩
        (sync_events [("a", "t1"), ("b", "t2")])).2.map OutMessage.sequence
      = countUp 1 2
    ∧ (run_publisher "pub" ⟨true, true, 0⟩
        (sync_events [("a", "t1"), ("b", "t2")])).2.map OutMessage.message_id
      = ["a", "b"] :=
  (claim_C5_amended "pub" ⟨true, true, 0⟩ [] rfl rfl).2 [("a", "t1"), ("b", "t2")]

/-- C6 counterexample: `start_all` returns the same value (`True`) for a
pool where both of two `connect()` calls succeed and for one where only
one of them does — the returned value cannot be the count of
successfully connected managers; the count lives only in the printed
`success_count`, the method returns `success_count > 0`. -/
theorem claim_C6_counterexample :
    (MultiSubscriberManager.start_all [true, true]).2
      = (MultiSubscriberManager.start_all [true, false]).2
    ∧ (MultiSubscriberManager.start_all [true, true]).1
      ≠ (MultiSubscriberManager.start_all [true, false]).1 := by
  constructor <;> decide

theorem start_all_foldl_count (rs : List Bool) :
    ∀ acc : Nat,
      rs.foldl (fun acc ok => if ok then acc + 1 else acc) acc
        = acc + (rs.filter (fun b => b)).length := by
  induction rs with
  | nil => intro acc; rfl
  | cons b t ih =>
    intro acc
    cases b
    · exact ih acc
    · show List.foldl (fun acc ok => if ok then acc + 1 else acc) (acc + 1) t
        = acc + (true :: List.filter (fun b => b) t).length
      rw [ih (acc + 1), List.length_cons]
      omega

/-- C6 amended: `start_all` attempts `connect()` on each subscriber in
sequence and counts the successes — `success_count` equals the number of
successful connect outcomes and lies between 0 and the pool size — but
the method RETURNS the boolean `success_count > 0` (at least one
subscriber connected), not the count itself. -/
theorem claim_C6_amended (rs : List Bool) :
    (MultiSubscriberManager.start_all rs).1 = (rs.filter (fun b => b)).length
    ∧ (MultiSubscriberManager.start_all rs).1 ≤ rs.length
    ∧ (MultiSubscriberManager.start_all rs).2
      = decide (0 < (MultiSubscriberManager.start_all rs).1) := by
  have h : (MultiSubscriberManager.start_all rs).1
      = (rs.filter (fun b => b)).length := by
    have := start_all_foldl_count rs 0
    simpa [MultiSubscriberManager.start_all] using this
  exact ⟨h, by rw [h]; exact List.length_filter_le _ rs, rfl⟩

open AWSIoTConfig in
/-- C8: `validate()` returns true exactly when all three credential
files (root CA, certificate, private key) exist, and both entry points
(`publisher.py main` and `subscriber.py main`) check it first and return
with zero connection attempts when it fails. -/
theorem claim_C8 (fs : String → Bool) (c : Config) (rs : List Bool) (ok : Bool) :
    (validate fs c = true ↔
      (fs c.root_ca_path = true ∧ fs c.cert_path = true
        ∧ fs c.private_key_path = true))
    ∧ (validate fs c = false →
        IoTMessagePublisher.main fs c ok
          = (IoTMessagePublisher.MainResult.config_error, 0)
        ∧ MultiSubscriberManager.main fs c rs
          = (IoTMessagePublisher.MainResult.config_error, 0)) := by
  constructor
  · simp [validate, List.all_cons, List.all_nil, Bool.and_eq_true, and_assoc]
  · intro h
    constructor
    · simp [IoTMessagePublisher.main, h]
    · simp [MultiSubscriberManager.main, h]

open AWSIoTConfig in
theorem claim_C8_witness :
    IoTMessagePublisher.main (fun _ => false) (mk_config (fun _ => none) "certs") false
      = (IoTMessagePublisher.MainResult.config_error, 0)
    ∧ MultiSubscriberManager.main (fun _ => false) (mk_config (fun _ => none) "certs") []
      = (IoTMessagePublisher.MainResult.config_error, 0) :=
  (claim_C8 (fun _ => false) (mk_config (fun _ => none) "certs") [] false).2 rfl

/-! ## Disconnect-simulator lemmas -/

namespace MultiSubscriberManager

open IoTSharedSubscriber

theorem inv_simulate_disconnect (s : SubscriberState) (h : OutageInv s) :
    OutageInv (simulate_disconnect s) := by
  obtain ⟨hcon, ic, mc, pm, sd, pr, tr⟩ := s
  cases ic
  · simpa [simulate_disconnect] using h
  · cases sd
    · have hpr : pr = 0 := by simpa using h.2
      subst hpr
      exact ⟨fun _ => ⟨rfl, rfl⟩, rfl⟩
    · exact absurd (h.1 rfl).1 (by simp)

theorem inv_reconnect_fire (ok : Bool) (s : SubscriberState) (h : OutageInv s) :
    OutageInv (reconnect_fire ok s) := by
  obtain ⟨hcon, ic, mc, pm, sd, pr, tr⟩ := s
  cases sd
  · have hpr : pr = 0 := by simpa using h.2
    subst hpr
    exact ⟨fun hh => absurd hh Bool.false_ne_true, rfl⟩
  · have hpr : pr = 1 := by simpa using h.2
    subst hpr
    cases ok
    · exact ⟨fun hh => absurd hh Bool.false_ne_true, rfl⟩
    · exact ⟨fun hh => absurd hh Bool.false_ne_true, rfl⟩

theorem inv_interrupted (s : SubscriberState) (h : OutageInv s) :
    OutageInv (on_connection_interrupted s) :=
  ⟨fun hsd => ⟨rfl, (h.1 hsd).2⟩, h.2⟩

theorem inv_resumed (sp : Bool) (s : SubscriberState) (h : OutageInv s)
    (hopen : s.transport_open = true) :
    OutageInv (on_connection_resumed s sp) := by
  obtain ⟨hcon, ic, mc, pm, sd, pr, tr⟩ := s
  cases sd
  · exact ⟨fun hh => absurd hh Bool.false_ne_true, h.2⟩
  · have hto := (h.1 rfl).2
    rw [hopen] at hto
    simp at hto

theorem inv_disconnect_run (r : TransportReply) (s : SubscriberState)
    (h : OutageInv s) : OutageInv ((disconnect_run s r).1) := by
  obtain ⟨hcon, ic, mc, pm, sd, pr, tr⟩ := s
  cases hcon
  · exact h
  · cases ic
    · exact h
    · cases r with
      | completes => exact ⟨fun hsd => ⟨rfl, rfl⟩, h.2⟩
      | raises nc => exact ⟨fun hsd => ⟨rfl, rfl⟩, h.2⟩

theorem inv_deliver (a : Arrival) (s : SubscriberState) (h : OutageInv s) :
    OutageInv (deliver s a) := by
  cases hp : a.payload with
  | invalid => simpa [deliver, on_message_received, hp] using h
  | valid md =>
    simp only [deliver, on_message_received, hp]
    exact ⟨fun hsd => h.1 hsd, h.2⟩

theorem poolstep_preserves_inv {p q : List SubscriberState}
    (hstep : PoolStep p q) (ih : ∀ s ∈ p, OutageInv s) :
    ∀ s ∈ q, OutageInv s := by
  cases hstep with
  | cycle pick =>
    intro s hs
    rcases hget : (connected_indices p).get?
        (pick % (connected_indices p).length) with _ | t
    · simp only [simulate_cycle, hget] at hs
      exact ih s hs
    · simp only [simulate_cycle, hget] at hs
      rcases mem_updateAt hs with hmem | ⟨hlt, rfl⟩
      · exact ih s hmem
      · exact inv_simulate_disconnect _ (ih _ (getD_mem_of_lt hlt))
  | fire i ok hpend =>
    intro s hs
    rcases mem_updateAt hs with hmem | ⟨hlt, rfl⟩
    · exact ih s hmem
    · exact inv_reconnect_fire ok _ (ih _ (getD_mem_of_lt hlt))
  | interrupt i =>
    intro s hs
    rcases mem_updateAt hs with hmem | ⟨hlt, rfl⟩
    · exact ih s hmem
    · exact inv_interrupted _ (ih _ (getD_mem_of_lt hlt))
  | resume i sp hopen =>
    intro s hs
    rcases mem_updateAt hs with hmem | ⟨hlt, rfl⟩
    · exact ih s hmem
    · exact inv_resumed sp _ (ih _ (getD_mem_of_lt hlt)) hopen
  | stopd i r =>
    intro s hs
    rcases mem_updateAt hs with hmem | ⟨hlt, rfl⟩
    · exact ih s hmem
    · exact inv_disconnect_run r _ (ih _ (getD_mem_of_lt hlt))
  | arrive i a =>
    intro s hs
    rcases mem_updateAt hs with hmem | ⟨hlt, rfl⟩
    · exact ih s hmem
    · exact inv_deliver a _ (ih _ (getD_mem_of_lt hlt))

theorem reachable_outage_inv {pool : List SubscriberState}
    (h : Reachable pool) : ∀ s ∈ pool, OutageInv s := by
  induction h with
  | init outcomes =>
    intro s hs
    rcases List.mem_map.1 hs with ⟨ok, hok, rfl⟩
    cases ok
    · exact ⟨fun hh => absurd hh Bool.false_ne_true, rfl⟩
    · exact ⟨fun hh => absurd hh Bool.false_ne_true, rfl⟩
  | step hr hstep ih => exact poolstep_preserves_inv hstep ih

theorem pending_le_one {pool : List SubscriberState} (hr : Reachable pool) :
    ∀ s ∈ pool, s.pending_reconnects ≤ 1 := by
  intro s hs
  have h2 := (reachable_outage_inv hr s hs).2
  rw [h2]
  by_cases hsd : s.should_disconnect = true <;> simp [hsd]

theorem cycle_target_connected {pool : List SubscriberState} {pick t : Nat}
    (hget : (connected_indices pool).get?
        (pick % (connected_indices pool).length) = some t) :
    t < pool.length ∧ (pool.getD t default).is_connected = true := by
  have ht : t ∈ connected_indices pool := List.get?_mem hget
  have hmem := List.mem_filter.1 ht
  exact ⟨List.mem_range.1 hmem.1, by simpa using hmem.2⟩

theorem cycle_noop_of_all_disconnected {pool : List SubscriberState}
    (h : ∀ s ∈ pool, s.is_connected = false) (pick : Nat) :
    simulate_cycle pick pool = pool := by
  have hconn : connected_indices pool = [] := by
    simp only [connected_indices]
    rw [List.filter_eq_nil_iff]
    intro i hi
    have hlt := List.mem_range.1 hi
    have hc := h _ (getD_mem_of_lt hlt)
    rw [hc]
    exact Bool.false_ne_true
  simp [simulate_cycle, hconn]

end MultiSubscriberManager

open IoTSharedSubscriber MultiSubscriberManager in
/-- C7: in every reachable pool state, (a) a simulator cycle that finds
no connected subscriber is a no-op; (b) every subscriber has at most one
in-flight scheduled reconnect; (c) the subscriber a cycle targets is
always currently connected and never mid simulated outage — its
`should_disconnect` is clear and it has no pending reconnect — so the
cycle never schedules a second overlapping reconnect; and (d) after the
cycle every subscriber still has at most one in-flight scheduled
reconnect. -/
theorem claim_C7 (pool : List SubscriberState) (h : Reachable pool) :
    (∀ pick : Nat, (∀ s ∈ pool, s.is_connected = false) →
        simulate_cycle pick pool = pool)
    ∧ (∀ s ∈ pool, s.pending_reconnects ≤ 1)
    ∧ (∀ pick t : Nat,
        (connected_indices pool).get?
            (pick % (connected_indices pool).length) = some t →
        (pool.getD t default).is_connected = true
        ∧ (pool.getD t default).should_disconnect = false
        ∧ (pool.getD t default).pending_reconnects = 0)
    ∧ (∀ pick : Nat, ∀ s ∈ simulate_cycle pick pool,
        s.pending_reconnects ≤ 1) := by
  refine ⟨fun pick hall => cycle_noop_of_all_disconnected hall pick,
          pending_le_one h, ?_, ?_⟩
  · intro pick t hget
    obtain ⟨hlt, hconn⟩ := cycle_target_connected hget
    have hinv := reachable_outage_inv h _ (getD_mem_of_lt hlt)
    have hsd : (pool.getD t default).should_disconnect = false := by
      by_cases hsd' : (pool.getD t default).should_disconnect = true
      · have hic := (hinv.1 hsd').1
        rw [hconn] at hic
        simp at hic
      · simpa using hsd'
    refine ⟨hconn, hsd, ?_⟩
    have hp := hinv.2
    rw [hsd] at hp
    simpa using hp
  · intro pick
    exact pending_le_one (Reachable.step h (PoolStep.cycle pool pick))

open IoTSharedSubscriber MultiSubscriberManager in
theorem claim_C7_witness :
    (connect true init_subscriber).pending_reconnects ≤ 1 :=
  (claim_C7 (List.map (fun ok => connect ok init_subscriber) [true])
      (Reachable.init [true])).2.1
    (connect true init_subscriber) (by simp)
